import Mathlib

/-!
Shallow embedding of the ai-hint-bot daemon (src/daemon.py) for verification
of the specification claims.  Each definition is translated directly from the
named Python function; line numbers refer to src/daemon.py.
-/

namespace AIHintBot

/-! ## RateLimiter (daemon.py 320-423)

The persisted usage state is the JSON object `{date, count, history}`;
`history` is a list of `{date, count}` entries.  The wall clock enters the
model as the `today` string parameter (the value of `_get_today()`), and
persistence is identified with the returned state (every mutation is followed
by `_save()` in the source). -/

/-- One history entry `{date, count}` as appended by `_reset_if_new_day`. -/
structure UsageEntry where
  date : String
  count : Nat
deriving Repr, DecidableEq

/-- The persisted usage state `{date, count, history}` (daemon.py 347). -/
structure UsageData where
  date : String
  count : Nat
  history : List UsageEntry
deriving Repr, DecidableEq

/-- Python's `history[-30:]`: keep the last `n` elements of a list. -/
def keep_last (n : Nat) (l : List α) : List α :=
  l.drop (l.length - n)

/-- `RateLimiter._reset_if_new_day` (daemon.py 362-380): if the stored date
differs from today, append the prior `{date, count}` to `history` (only when
the stored date is truthy, i.e. nonempty, and the stored count is positive),
keep the last 30 history entries, and reset `date` to today and `count` to 0.
Otherwise the state is unchanged. -/
def reset_if_new_day (today : String) (d : UsageData) : UsageData :=
  if d.date ≠ today then
    let history' :=
      if d.date ≠ "" ∧ 0 < d.count then
        keep_last 30 (d.history ++ [⟨d.date, d.count⟩])
      else
        d.history
    { date := today, count := 0, history := history' }
  else
    d

/-- `RateLimiter.can_make_request` (daemon.py 382-392): returns
`(allowed, used, limit)` together with the (possibly rolled-over) persisted
state.  A non-positive limit means unlimited: `(True, 0, 0)` with no
rollover. -/
def can_make_request (limit : Int) (today : String) (d : UsageData) :
    (Bool × Nat × Int) × UsageData :=
  if limit ≤ 0 then
    ((true, 0, 0), d)
  else
    let d' := reset_if_new_day today d
    ((decide ((d'.count : Int) < limit), d'.count, limit), d')

/-- `RateLimiter.record_request` (daemon.py 394-411): roll over if needed,
then increment the count by one and persist.  Note that the function does not
take the daily limit into account at all. -/
def record_request (today : String) (d : UsageData) : UsageData :=
  let d' := reset_if_new_day today d
  { d' with count := d'.count + 1 }

/-- The dictionary returned by `RateLimiter.get_usage_stats`. -/
structure UsageStats where
  date : String
  used : Nat
  limit : Int
  remaining : Int
  history : List UsageEntry
deriving Repr, DecidableEq

/-- `RateLimiter.get_usage_stats` (daemon.py 413-423): read-only projection
that still performs the rollover check. -/
def get_usage_stats (limit : Int) (today : String) (d : UsageData) :
    UsageStats × UsageData :=
  let d' := reset_if_new_day today d
  ({ date := today
     used := d'.count
     limit := limit
     remaining := if 0 < limit then max 0 (limit - (d'.count : Int)) else -1
     history := d'.history }, d')

/-! ### RateLimiter helper lemmas -/

/-- When the stored date already equals today, the rollover is a no-op. -/
theorem reset_if_new_day_same (today : String) (d : UsageData)
    (h : d.date = today) : reset_if_new_day today d = d := by
  unfold reset_if_new_day
  simp [h]

/-- On a fixed day, `record_request` just increments the count. -/
theorem record_request_same_day (today : String) (d : UsageData)
    (h : d.date = today) :
    record_request today d = { d with count := d.count + 1 } := by
  unfold record_request
  rw [reset_if_new_day_same today d h]

/-- Iterating `record_request` on a fixed day keeps the date and adds one to
the count per call. -/
theorem iterate_record_request (today : String) (n : Nat) :
    ∀ d : UsageData, d.date = today →
      ((record_request today)^[n] d).date = today ∧
      ((record_request today)^[n] d).count = d.count + n := by
  induction n with
  | zero => intro d h; simpa using h
  | succ k ih =>
      intro d h
      rw [Function.iterate_succ_apply]
      have hrec := record_request_same_day today d h
      have h' : (record_request today d).date = today := by rw [hrec]; exact h
      have := ih (record_request today d) h'
      refine ⟨this.1, ?_⟩
      rw [this.2, hrec]
      simp
      omega

/-! ## HintViewer: framebuffer takeover and fallback (daemon.py 1080-1555)

`_show_direct_fb` interacts with the operating system at several points (sysfs
reads, `fgconsole`, `pkill`, `chvt`, PIL, `/dev/fb0`, evdev).  The outcome of
each interaction is supplied as a field of `FbEnv`, and the function's
observable behaviour (return value, whether the fallback was invoked, which
signals were sent, whether the recorded VT was restored) is collected in
`FbOutcome`. -/

/-- Outcome of the `open('/dev/fb0','r+b')` write at step 6 of
`_show_direct_fb` (daemon.py 1207-1221). -/
inductive FbWriteResult
  | ok
  | permError
  | otherError
deriving Repr, DecidableEq

/-- Environment for one run of `_show_direct_fb`:
* `fbProps`: `some (width, height, bpp)` if the sysfs reads at step 1 succeed;
* `currentVT`: the output of `fgconsole` at step 2 (none on failure or empty
  output);
* `stopFails`: whether the `pkill -STOP` call at step 3 raises (in which case
  `retroarch_suspended` stays false);
* `imagePrepFails`: whether the PIL decode/resize at step 5 raises;
* `fbWrite`: the result of the framebuffer write at step 6;
* `evdevAvailable`, `deviceOk`, `buttonEvents`: inputs of the dismissal wait
  at step 7 — `buttonEvents` lists the `(type, value)` input events delivered
  before the 300 s ceiling;
* `waitRaises`: an unexpected exception at step 7, reaching the outer handler
  (daemon.py 1248-1258);
* `hintTextExists`: whether the companion `.txt` file exists, read by the
  fallback `_show_retroarch_pause`. -/
structure FbEnv where
  fbProps : Option (Nat × Nat × Nat)
  currentVT : Option String
  stopFails : Bool
  imagePrepFails : Bool
  fbWrite : FbWriteResult
  evdevAvailable : Bool
  deviceOk : Bool
  buttonEvents : List (Nat × Nat)
  waitRaises : Bool
  hintTextExists : Bool
deriving Repr, DecidableEq

/-- Observable outcome of `_show_direct_fb`:
* `retval`: the boolean the function returns;
* `fellBack`: whether it delegated to `_show_retroarch_pause`;
* `stopSent`: whether `pkill -STOP retroarch` was issued (the suspension
  token was acquired);
* `contSent`: whether `pkill -CONT retroarch` was issued before returning;
* `vtRestored`: whether `chvt <recorded VT>` was issued before returning;
* `waitResult`: the boolean returned by `_wait_for_button_press` (false when
  the wait was never executed). -/
structure FbOutcome where
  retval : Bool
  fellBack : Bool
  stopSent : Bool
  contSent : Bool
  vtRestored : Bool
  waitResult : Bool
deriving Repr, DecidableEq

/-- `evdev.ecodes.EV_KEY`. -/
def EV_KEY : Nat := 1

/-- `HintViewer._wait_for_button_press` (daemon.py 1441-1470): returns true
iff the device opens and some `EV_KEY` event with value 1 (a press) arrives
before the timeout; returns false on timeout or on any exception. -/
def wait_for_button_press (deviceOk : Bool) (events : List (Nat × Nat)) :
    Bool :=
  if deviceOk then
    events.any (fun e => e.1 == EV_KEY && e.2 == 1)
  else
    false

/-- `HintViewer._show_retroarch_pause` (daemon.py 1503-1555): pauses
RetroArch and pushes the hint text (or a pointer message) through the OSD;
every RetroArch command is sent via `RetroArchCommander.send`, which catches
all exceptions (daemon.py 439-454), and both branches of the function end in
`return True`. -/
def show_retroarch_pause (_hintTextExists : Bool) : Bool :=
  true

/-- `HintViewer._show_direct_fb` (daemon.py 1098-1258), step by step:
1. sysfs property read — failure returns the fallback's result (nothing
   acquired yet);
2. record the current VT (best effort);
3. `pkill -STOP retroarch`, setting `retroarch_suspended`;
4. `chvt` to a text VT (best effort, no observable obligation);
5. PIL decode/resize — a raised exception returns the fallback's result
   directly, and an unsupported depth (not 32/24/16) does the same;
6. framebuffer write — `PermissionError` or any other exception returns the
   fallback's result directly;
7. wait for a button press (the returned boolean is discarded), or an
   unexpected exception reaches the outer handler, which restores the VT,
   resumes RetroArch and returns the fallback's result;
8./9. on normal completion restore the recorded VT, resume RetroArch if
   suspended, and return `True`. -/
def show_direct_fb (env : FbEnv) : FbOutcome :=
  match env.fbProps with
  | none =>
      { retval := show_retroarch_pause env.hintTextExists, fellBack := true
        stopSent := false, contSent := false, vtRestored := false
        waitResult := false }
  | some (_w, _h, bpp) =>
      let suspended := !env.stopFails
      if env.imagePrepFails then
        { retval := show_retroarch_pause env.hintTextExists, fellBack := true
          stopSent := suspended, contSent := false, vtRestored := false
          waitResult := false }
      else if bpp = 32 ∨ bpp = 24 ∨ bpp = 16 then
        match env.fbWrite with
        | .permError =>
            { retval := show_retroarch_pause env.hintTextExists
              fellBack := true, stopSent := suspended, contSent := false
              vtRestored := false, waitResult := false }
        | .otherError =>
            { retval := show_retroarch_pause env.hintTextExists
              fellBack := true, stopSent := suspended, contSent := false
              vtRestored := false, waitResult := false }
        | .ok =>
            if env.waitRaises then
              { retval := show_retroarch_pause env.hintTextExists
                fellBack := true, stopSent := suspended
                contSent := suspended, vtRestored := env.currentVT.isSome
                waitResult := false }
            else
              let pressed :=
                if env.evdevAvailable then
                  wait_for_button_press env.deviceOk env.buttonEvents
                else
                  false
              { retval := true, fellBack := false, stopSent := suspended
                contSent := suspended, vtRestored := env.currentVT.isSome
                waitResult := pressed }
      else
        { retval := show_retroarch_pause env.hintTextExists, fellBack := true
          stopSent := suspended, contSent := false, vtRestored := false
          waitResult := false }

/-- The display techniques of `HintViewer.show` modelled here: the
direct-framebuffer technique and the RetroArch-pause fallback (the remaining
techniques `fbv`, `mpv`, `fbi`, `feh` are external-binary wrappers not needed
by any claim). -/
inductive DisplayMethod
  | direct_fb
  | retroarch_pause
deriving Repr, DecidableEq

/-- `HintViewer.show` (daemon.py 1080-1096): dispatch on the selected
display method (named `viewer_show` because `show` is a Lean keyword). -/
def viewer_show (method : DisplayMethod) (env : FbEnv) : Bool :=
  match method with
  | .direct_fb => (show_direct_fb env).retval
  | .retroarch_pause => show_retroarch_pause env.hintTextExists

/-- Every path of `show_direct_fb` returns `true`: the happy path returns
`True` literally and every failure path returns `_show_retroarch_pause`'s
result, which is `True`. -/
theorem show_direct_fb_retval (env : FbEnv) :
    (show_direct_fb env).retval = true := by
  unfold show_direct_fb show_retroarch_pause
  rcases env with ⟨props, vt, sf, ip, fw, ev, dk, be, wr, ht⟩
  rcases props with _ | ⟨⟨w, h, bpp⟩⟩ <;> dsimp <;>
    split <;> try rfl
  split <;> try rfl
  cases fw <;> dsimp <;> split <;> rfl

/-! ## HotkeyListener combo matching (daemon.py 1562-1667) -/

/-- The two actions a combo can dispatch (`on_request` / `on_view`
callbacks handed to `HotkeyListener.__init__`). -/
inductive ComboAction
  | request
  | view
deriving Repr, DecidableEq

/-- Python's `combo.issubset(pressed)` on the string sets involved. -/
def subset_of (combo pressed : List String) : Bool :=
  combo.all (fun b => pressed.contains b)

/-- `HotkeyListener._check_combos` (daemon.py 1655-1667): if the request
combo is a subset of the pressed set, clear the pressed set and dispatch the
request action; otherwise (`elif`) if the view combo is a subset, clear and
dispatch the view action; otherwise leave the pressed set alone and dispatch
nothing.  The returned pair is (new pressed set, dispatched action). -/
def check_combos (request_combo view_combo pressed : List String) :
    List String × Option ComboAction :=
  if subset_of request_combo pressed then
    ([], some .request)
  else if subset_of view_combo pressed then
    ([], some .view)
  else
    (pressed, none)

/-! ## HintSystem workflow coordinator (daemon.py 1674-1903) -/

/-- The coordinator state relevant to the request/view workflow:
the `processing` and `hint_ready` flags, the current hint path, and the
RateLimiter's persisted usage state. -/
structure CoordState where
  processing : Bool
  hint_ready : Bool
  current_hint_path : Option String
  usage : UsageData
deriving Repr, DecidableEq

/-- Externally observable side effects of `HintSystem.on_request_hint`, in
program order. -/
inductive ReqEffect
  | already_generating_notice
  | rl_check (allowed : Bool) (used : Nat) (limit : Int)
  | quota_notice (used : Nat) (limit : Int)
  | rl_log_rate_limited
  | no_game_notice
  | generating_notice
  | error_notice
  | spawn_background
deriving Repr, DecidableEq

/-- Environment for one call of `on_request_hint`: the configured daily
limit, today's date, the parsed RetroArch status flags, and the screenshot
capture result. -/
structure ReqEnv where
  limit : Int
  today : String
  playing : Bool
  paused : Bool
  screenshot : Option String
deriving Repr, DecidableEq

/-- `HintSystem.on_request_hint` (daemon.py 1740-1795):
reject immediately while `processing` is set (before any RateLimiter call);
then gate through `RateLimiter.can_make_request`; then set
`processing := true`, `hint_ready := false`; reject when no game is running
(clearing `processing`); show the generating notice; capture a screenshot
(failure clears `processing`); finally spawn the background task. -/
def on_request_hint (env : ReqEnv) (st : CoordState) :
    CoordState × List ReqEffect :=
  if st.processing then
    (st, [.already_generating_notice])
  else
    let r := can_make_request env.limit env.today st.usage
    let allowed := r.1.1
    let used := r.1.2.1
    let st1 := { st with usage := r.2 }
    if !allowed then
      (st1, [.rl_check allowed used env.limit, .quota_notice used env.limit,
             .rl_log_rate_limited])
    else
      let st2 := { st1 with processing := true, hint_ready := false }
      if !env.playing && !env.paused then
        ({ st2 with processing := false },
         [.rl_check allowed used env.limit, .no_game_notice])
      else
        match env.screenshot with
        | none =>
            ({ st2 with processing := false },
             [.rl_check allowed used env.limit, .generating_notice,
              .error_notice])
        | some _ =>
            (st2, [.rl_check allowed used env.limit, .generating_notice,
                   .spawn_background])

/-- Emulator/display operations issued by `HintSystem.on_view_hint`, in
program order. -/
inductive ViewOp
  | message (s : String)
  | save_state (slot : Nat)
  | sleep_ms (ms : Nat)
  | display (path : String)
  | load_state (slot : Nat)
deriving Repr, DecidableEq

/-- `HintSystem.on_view_hint` (daemon.py 1870-1903): reject with a notice
unless `hint_ready` is set and a hint path exists; otherwise save state to
the configured slot, sleep 2 s for the save to complete, display the hint,
sleep 0.2 s, and load state from the same slot. -/
def on_view_hint (slot : Nat) (hint_ready : Bool)
    (current_hint_path : Option String) : List ViewOp :=
  match hint_ready, current_hint_path with
  | true, some p =>
      [.save_state slot, .sleep_ms 2000, .display p, .sleep_ms 200,
       .load_state slot]
  | _, _ =>
      [.message "No hint ready! Press Select+L1 first."]

/-! ## RGB565 pixel encoding (daemon.py 1260-1269) -/

/-- The 16-bit word `((r >> 3) << 11) | ((g >> 2) << 5) | (b >> 3)` computed
per pixel by `_convert_to_rgb565`. -/
def rgb565_word (r g b : Nat) : Nat :=
  ((r >>> 3) <<< 11) ||| ((g >>> 2) <<< 5) ||| (b >>> 3)

/-- Python's `struct.pack('<H', n)`: the two bytes of `n` in little-endian
order. -/
def pack_le16 (n : Nat) : List Nat :=
  [n % 256, (n / 256) % 256]

/-- `HintViewer._convert_to_rgb565` (daemon.py 1260-1269): map each `(r,g,b)`
pixel, in image order, to the little-endian bytes of its RGB565 word and
concatenate. -/
def convert_to_rgb565 (pixels : List (Nat × Nat × Nat)) : List Nat :=
  (pixels.map (fun p => pack_le16 (rgb565_word p.1 p.2.1 p.2.2))).flatten

/-! ## AIClient and background classification (daemon.py 643-781, 1797-1868)

Python strings are embedded as `List Char` so that prefix facts about
concatenations can be stated and proved. -/

/-- Characters of a Python string. -/
abbrev Chars := List Char

/-- Helper for `str.startswith`: does the second list start with the
first? -/
def starts_with_aux : Chars → Chars → Bool
  | [], _ => true
  | _ :: _, [] => false
  | c :: p', d :: s' => c == d && starts_with_aux p' s'

/-- Python's `s.startswith(p)`. -/
def str_starts_with (s p : Chars) : Bool :=
  starts_with_aux p s

/-- The error classification at daemon.py 1809:
`hint_text.startswith("Error:") or hint_text.startswith("API Error:")`. -/
def is_error_text (t : Chars) : Bool :=
  str_starts_with t "Error:".data || str_starts_with t "API Error:".data

/-- Outcome of the HTTPS call inside `_call_anthropic` / `_call_openai`:
either a decoded JSON response carrying an optional message text, an
`urllib.error.HTTPError` with a status code, or any other exception with a
message. -/
inductive HttpOutcome
  | ok (contentText : Option Chars)
  | httpError (code : Nat)
  | exn (msg : Chars)
deriving Repr, DecidableEq

/-- `AIClient._call_anthropic` (daemon.py 671-727): extract the content text
(or "No hint generated."), return "API Error: {code}" on `HTTPError`, and
"Error: {e}" on any other exception. -/
def call_anthropic : HttpOutcome → Chars
  | .ok (some t) => t
  | .ok none => "No hint generated.".data
  | .httpError c => "API Error: ".data ++ (toString c).data
  | .exn m => "Error: ".data ++ m

/-- `AIClient._call_openai` (daemon.py 729-781): identical error shape to
`_call_anthropic`. -/
def call_openai : HttpOutcome → Chars
  | .ok (some t) => t
  | .ok none => "No hint generated.".data
  | .httpError c => "API Error: ".data ++ (toString c).data
  | .exn m => "Error: ".data ++ m

/-- `AIClient.get_hint` (daemon.py 652-669): an empty (falsy) API key
returns the configuration error string before anything else; then the
screenshot file is read (an exception there propagates to the caller, hence
the `Except` result); then dispatch on the provider string, with an unknown
provider reported as an error string. -/
def get_hint (api_key : Chars) (screenshotReadOk : Bool) (api_provider : Chars)
    (h : HttpOutcome) : Except Unit Chars :=
  if api_key = [] then
    .ok "Error: No API key configured. Edit config.json to add your API key.".data
  else if !screenshotReadOk then
    .error ()
  else if api_provider = "anthropic".data then
    .ok (call_anthropic h)
  else if api_provider = "openai".data then
    .ok (call_openai h)
  else
    .ok ("Error: Unknown API provider: ".data ++ api_provider)

/-- How `_process_hint_request` classifies one request. -/
inductive ProcessOutcome
  | api_error
  | ready (t : Chars)
  | processing_error
deriving Repr, DecidableEq

/-- `HintSystem._process_hint_request` (daemon.py 1797-1868), classification
part: a propagated exception is caught by the outer handler (PROCESSING_ERROR,
`processing` cleared, never Ready); a returned text is a failure exactly when
`is_error_text` holds (API_ERROR, `processing` cleared, never Ready); any
other text leads to the Ready state. -/
def process_hint_request : Except Unit Chars → ProcessOutcome
  | .error _ => .processing_error
  | .ok t => if is_error_text t then .api_error else .ready t

/-- A concatenation starts with its first part. -/
theorem str_starts_with_append (p t : Chars) :
    str_starts_with (p ++ t) p = true := by
  unfold str_starts_with
  induction p with
  | nil => rfl
  | cons c p' ih => simp [starts_with_aux, ih]

/-! ## Claim theorems -/

/-- C3 counterexample: for the stored state `{date := "2026-10-11",
count := 0, history := []}` and today `"2026-10-12"`, the claim predicts that
the rollover appends the prior day's entry `{"2026-10-11", 0}` to the
history; the code resets date and count but leaves the history empty, because
`_reset_if_new_day` appends only when the prior count is positive. -/
theorem C3_counterexample_zero_count_not_appended :
    (reset_if_new_day "2026-10-12" ⟨"2026-10-11", 0, []⟩).date = "2026-10-12" ∧
    (reset_if_new_day "2026-10-12" ⟨"2026-10-11", 0, []⟩).count = 0 ∧
    (reset_if_new_day "2026-10-12" ⟨"2026-10-11", 0, []⟩).history = [] ∧
    (reset_if_new_day "2026-10-12" ⟨"2026-10-11", 0, []⟩).history ≠
      [⟨"2026-10-11", 0⟩] := by
  refine ⟨?_, ?_, ?_, ?_⟩ <;> decide

/-- C3 (amended): for every stored usage state whose date differs from
today, the rollover resets the count to 0 and sets the date to today; it
appends the prior day's `{date, count}` entry to the history, capped to the
30 most recent entries, exactly when the prior date is nonempty and the
prior count is positive, and otherwise leaves the history unchanged.  The
rollover is the one performed by `can_make_request` (when the limit is
positive; a non-positive limit returns without rolling over),
`record_request`, and `get_usage_stats`; and when the history already holds
30 entries and an append happens, the oldest entry is dropped. -/
theorem C3_amended_rollover (limit : Int) (today : String) (d : UsageData)
    (hd : d.date ≠ today) :
    (reset_if_new_day today d).date = today ∧
    (reset_if_new_day today d).count = 0 ∧
    (reset_if_new_day today d).history =
      (if d.date ≠ "" ∧ 0 < d.count
        then keep_last 30 (d.history ++ [⟨d.date, d.count⟩])
        else d.history) ∧
    (0 < limit →
      (can_make_request limit today d).2 = reset_if_new_day today d) ∧
    record_request today d = { reset_if_new_day today d with count := 1 } ∧
    (get_usage_stats limit today d).2 = reset_if_new_day today d ∧
    (d.history.length = 30 → d.date ≠ "" → 0 < d.count →
      (reset_if_new_day today d).history =
        d.history.tail ++ [⟨d.date, d.count⟩]) := by
  refine ⟨?_, ?_, ?_, ?_, ?_, ?_, ?_⟩
  · simp [reset_if_new_day, hd]
  · simp [reset_if_new_day, hd]
  · simp only [reset_if_new_day, if_pos hd]
  · intro hl
    have : ¬ limit ≤ 0 := by omega
    simp [can_make_request, this]
  · have h0 : (reset_if_new_day today d).count = 0 := by
      simp [reset_if_new_day, hd]
    simp [record_request, h0]
  · simp [get_usage_stats]
  · intro h30 hne hc
    simp only [reset_if_new_day, if_pos hd, if_pos (And.intro hne hc),
      keep_last, List.length_append, List.length_cons, List.length_nil, h30]
    rw [List.drop_append_of_le_length (by omega)]
    simp [List.drop_one]

/-- Witness for C3 (amended) at the concrete state
`{date := "A", count := 2, history := []}` rolled over on day `"B"`. -/
theorem C3_amended_rollover_witness :
    (reset_if_new_day "B" ⟨"A", 2, []⟩).date = "B" ∧
    (reset_if_new_day "B" ⟨"A", 2, []⟩).count = 0 :=
  ⟨(C3_amended_rollover 5 "B" ⟨"A", 2, []⟩ (by decide)).1,
   (C3_amended_rollover 5 "B" ⟨"A", 2, []⟩ (by decide)).2.1⟩

/-- C4: a non-positive daily limit makes `can_make_request` return
`(allowed := true, used := 0, limit := 0)` with the state untouched; for a
positive limit, on a fixed day `allowed` holds exactly when the current-day
count is strictly below the limit, and after exactly `limit` calls of
`record_request` starting from a fresh count of 0, `can_make_request`
reports `allowed = false`. -/
theorem C4_daily_limit_gate (limit : Int) (today : String) (d : UsageData) :
    (limit ≤ 0 → can_make_request limit today d = ((true, 0, 0), d)) ∧
    (0 < limit → d.date = today →
      ((can_make_request limit today d).1.1 = true ↔
        (d.count : Int) < limit)) ∧
    (0 < limit → d.date = today → d.count = 0 →
      (can_make_request limit today
        ((record_request today)^[limit.toNat] d)).1.1 = false) := by
  refine ⟨?_, ?_, ?_⟩
  · intro hl
    simp [can_make_request, hl]
  · intro hl hdate
    have hnl : ¬ limit ≤ 0 := by omega
    simp [can_make_request, hnl, reset_if_new_day_same today d hdate]
  · intro hl hdate hcount
    have hnl : ¬ limit ≤ 0 := by omega
    obtain ⟨hdate', hcount'⟩ := iterate_record_request today limit.toNat d hdate
    simp [can_make_request, hnl, reset_if_new_day_same today _ hdate',
      hcount', hcount]

/-- Witness for C4 with limit 2 on day `"D"`: two recorded requests exhaust
the quota. -/
theorem C4_daily_limit_gate_witness :
    (can_make_request 2 "D"
      ((record_request "D")^[(2 : Int).toNat] ⟨"D", 0, []⟩)).1.1 = false :=
  (C4_daily_limit_gate 2 "D" ⟨"D", 0, []⟩).2.2 (by decide) rfl rfl

/-- C9: `record_request` takes no limit argument at all; on a fixed day it
unconditionally increments the persisted count by one, even when the count
already reached a positive limit, while `can_make_request` keeps reporting
`allowed = false` for every count at or above the limit. -/
theorem C9_record_request_unconditional (limit : Int) (today : String)
    (d : UsageData) (h : d.date = today) :
    (record_request today d).count = d.count + 1 ∧
    (record_request today d).date = today ∧
    (0 < limit → limit ≤ (d.count : Int) →
      (can_make_request limit today d).1.1 = false) := by
  refine ⟨?_, ?_, ?_⟩
  · rw [record_request_same_day today d h]
  · rw [record_request_same_day today d h]; exact h
  · intro hl hle
    have hnl : ¬ limit ≤ 0 := by omega
    simp [can_make_request, hnl, reset_if_new_day_same today d h]
    omega

/-- Witness for C9: with limit 3 and a persisted count of 5 the count still
grows to 6 while requests stay disallowed. -/
theorem C9_record_request_unconditional_witness :
    (record_request "D" ⟨"D", 5, []⟩).count = 6 ∧
    (can_make_request 3 "D" ⟨"D", 5, []⟩).1.1 = false :=
  ⟨(C9_record_request_unconditional 3 "D" ⟨"D", 5, []⟩ rfl).1,
   (C9_record_request_unconditional 3 "D" ⟨"D", 5, []⟩ rfl).2.2 (by decide)
     (by decide)⟩

/-- The environment in which `_show_direct_fb` reaches the unsupported-depth
exit: the sysfs read reports 8 bpp, `fgconsole` reported VT 2, RetroArch was
successfully suspended, and image preparation succeeds. -/
def fb_env_unsupported_depth : FbEnv :=
  { fbProps := some (640, 480, 8), currentVT := some "2", stopFails := false
    imagePrepFails := false, fbWrite := .ok, evdevAvailable := true
    deviceOk := true, buttonEvents := [], waitRaises := false
    hintTextExists := true }

/-- C1 (code bug): with an unsupported framebuffer depth reached after the
emulator was suspended (the stop signal was sent) and the current VT was
recorded, `_show_direct_fb` delegates to the fallback technique without
sending the resume signal and without restoring the recorded virtual
terminal — contradicting the unconditional-release invariant the claim
states.  The permission-failure, write-failure and image-preparation-failure
paths behave the same way; only the raised-exception path and normal
completion release the resources. -/
theorem C1_unsupported_depth_leaks_suspension :
    (show_direct_fb fb_env_unsupported_depth).stopSent = true ∧
    (show_direct_fb fb_env_unsupported_depth).fellBack = true ∧
    (show_direct_fb fb_env_unsupported_depth).contSent = false ∧
    (show_direct_fb fb_env_unsupported_depth).vtRestored = false ∧
    (show_direct_fb { fb_env_unsupported_depth with
        fbProps := some (640, 480, 16), fbWrite := .permError }).contSent
      = false ∧
    (show_direct_fb { fb_env_unsupported_depth with
        fbProps := some (640, 480, 16), fbWrite := .permError }).stopSent
      = true := by
  refine ⟨?_, ?_, ?_, ?_, ?_, ?_⟩ <;> rfl

/-- The environment in which the direct-framebuffer technique completes
normally but the 300 s button wait times out: no input event arrives. -/
def fb_env_wait_timeout : FbEnv :=
  { fbProps := some (640, 480, 16), currentVT := some "1", stopFails := false
    imagePrepFails := false, fbWrite := .ok, evdevAvailable := true
    deviceOk := true, buttonEvents := [], waitRaises := false
    hintTextExists := true }

/-- C2 counterexample: with the direct-framebuffer technique selected and the
button wait timing out (no event arrives, `_wait_for_button_press` returns
false, no technique failure occurred), `HintViewer.show` still returns
`true` — the claim predicts `false` on a timed-out wait. -/
theorem C2_counterexample_timeout_returns_true :
    viewer_show .direct_fb fb_env_wait_timeout = true ∧
    (show_direct_fb fb_env_wait_timeout).waitResult = false ∧
    (show_direct_fb fb_env_wait_timeout).fellBack = false := by
  refine ⟨?_, ?_, ?_⟩ <;> rfl

/-- C2 (amended): for the modelled techniques (direct framebuffer and the
RetroArch-pause fallback), `HintViewer.show` returns `true` in every
environment: `_show_direct_fb` discards the boolean returned by
`_wait_for_button_press` and returns `True` on normal completion even when
the wait timed out, and every failure path delegates to
`_show_retroarch_pause`, which itself always returns `True`. -/
theorem C2_amended_show_always_true (m : DisplayMethod) (env : FbEnv) :
    viewer_show m env = true := by
  cases m with
  | direct_fb => exact show_direct_fb_retval env
  | retroarch_pause => rfl

/-- C5: whenever at least one configured combo is a subset of the pressed
set, `_check_combos` clears the pressed set, dispatches exactly one action,
and when the request combo is satisfied (in particular when both are), the
request action is the one dispatched. -/
theorem C5_combo_clear_single_dispatch_priority
    (rc vc pressed : List String)
    (h : subset_of rc pressed = true ∨ subset_of vc pressed = true) :
    (check_combos rc vc pressed).1 = [] ∧
    (check_combos rc vc pressed).2.isSome = true ∧
    (subset_of rc pressed = true →
      (check_combos rc vc pressed).2 = some .request) := by
  unfold check_combos
  rcases h with h | h
  · simp [h]
  · by_cases hr : subset_of rc pressed = true
    · simp [hr]
    · simp [hr, h]

/-- Witness for C5: with both combos simultaneously satisfied by the pressed
set, the pressed set is cleared and the request action fires. -/
theorem C5_combo_witness :
    (check_combos ["BTN_SELECT", "BTN_TL"] ["BTN_SELECT", "BTN_TR"]
      ["BTN_SELECT", "BTN_TL", "BTN_TR"]).1 = [] ∧
    (check_combos ["BTN_SELECT", "BTN_TL"] ["BTN_SELECT", "BTN_TR"]
      ["BTN_SELECT", "BTN_TL", "BTN_TR"]).2 = some .request :=
  ⟨(C5_combo_clear_single_dispatch_priority _ _ _ (Or.inl (by decide))).1,
   (C5_combo_clear_single_dispatch_priority _ _ _
      (Or.inl (by decide))).2.2 (by decide)⟩

/-- C6: `on_view_hint` with no ready artifact emits only the user-visible
rejection notice (no save, display or load); with a ready artifact it emits
save-state to the configured slot, the save-settling wait, the display of
the artifact, and load-state from the same slot, in exactly that order. -/
theorem C6_view_gate_and_order (slot : Nat) (hint_ready : Bool)
    (path : Option String) :
    (∀ p, hint_ready = true → path = some p →
      on_view_hint slot hint_ready path =
        [.save_state slot, .sleep_ms 2000, .display p, .sleep_ms 200,
         .load_state slot]) ∧
    (hint_ready = false ∨ path = none →
      on_view_hint slot hint_ready path =
        [.message "No hint ready! Press Select+L1 first."]) := by
  constructor
  · rintro p rfl rfl
    rfl
  · rintro (rfl | rfl)
    · cases path <;> rfl
    · cases hint_ready <;> rfl

/-- Witness for C6 at slot 7: a ready artifact yields the
save/wait/display/load trace, and a not-ready state yields only the
notice. -/
theorem C6_view_witness :
    on_view_hint 7 true (some "current-hint.png") =
      [.save_state 7, .sleep_ms 2000, .display "current-hint.png",
       .sleep_ms 200, .load_state 7] ∧
    on_view_hint 7 false none =
      [.message "No hint ready! Press Select+L1 first."] :=
  ⟨(C6_view_gate_and_order 7 true (some "current-hint.png")).1
      "current-hint.png" rfl rfl,
   (C6_view_gate_and_order 7 false none).2 (Or.inl rfl)⟩

/-- C7: while the `processing` flag is set, `on_request_hint` returns after
the "already generating" notice with the state unchanged — in particular the
RateLimiter's persisted usage state is untouched and no RateLimiter
operation appears among the emitted effects. -/
theorem C7_reentrant_request_rejected (env : ReqEnv) (st : CoordState)
    (h : st.processing = true) :
    on_request_hint env st = (st, [.already_generating_notice]) ∧
    (on_request_hint env st).1.usage = st.usage ∧
    (∀ e ∈ (on_request_hint env st).2, ∀ a u l,
      e ≠ ReqEffect.rl_check a u l) := by
  have hmain : on_request_hint env st = (st, [.already_generating_notice]) := by
    unfold on_request_hint
    simp [h]
  refine ⟨hmain, by rw [hmain], ?_⟩
  rw [hmain]
  intro e he a u l
  simp only [List.mem_singleton] at he
  simp [he]

/-- Witness for C7: a concrete processing state and environment. -/
theorem C7_reentrant_witness :
    on_request_hint ⟨5, "D", true, false, some "shot.png"⟩
        ⟨true, false, none, ⟨"D", 1, []⟩⟩ =
      (⟨true, false, none, ⟨"D", 1, []⟩⟩, [.already_generating_notice]) :=
  (C7_reentrant_request_rejected ⟨5, "D", true, false, some "shot.png"⟩
    ⟨true, false, none, ⟨"D", 1, []⟩⟩ rfl).1

/-- C8: `_convert_to_rgb565` emits, per pixel in image order, the two
little-endian bytes of the word `((r >> 3) << 11) | ((g >> 2) << 5) |
(b >> 3)`; for 8-bit channels that word fits in 16 bits; and the 2×1 image
with pixels (255,0,0) and (0,255,0) encodes to the little-endian RGB565
packing of each pixel in order, `[0x00, 0xF8, 0xE0, 0x07]`. -/
theorem C8_rgb565_encoding :
    (∀ r g b ps, convert_to_rgb565 ((r, g, b) :: ps) =
      pack_le16 (rgb565_word r g b) ++ convert_to_rgb565 ps) ∧
    (∀ r g b, r < 256 → g < 256 → b < 256 → rgb565_word r g b < 2 ^ 16) ∧
    convert_to_rgb565 [(255, 0, 0), (0, 255, 0)] = [0x00, 0xF8, 0xE0, 0x07] := by
  refine ⟨?_, ?_, ?_⟩
  · intro r g b ps
    simp [convert_to_rgb565]
  · intro r g b hr hg hb
    unfold rgb565_word
    have hr5 : r >>> 3 < 2 ^ 5 := by
      rw [Nat.shiftRight_eq_div_pow]; omega
    have hg6 : g >>> 2 < 2 ^ 6 := by
      rw [Nat.shiftRight_eq_div_pow]; omega
    have hb5 : b >>> 3 < 2 ^ 5 := by
      rw [Nat.shiftRight_eq_div_pow]; omega
    rw [Nat.lor_assoc]
    have hinner : (g >>> 2) <<< 5 ||| b >>> 3 < 2 ^ 11 :=
      Nat.append_lt hb5 hg6
    exact Nat.append_lt hinner hr5
  · decide

/-- Witness for C8: the red pixel's word fits in 16 bits and the concrete
2×1 encoding holds. -/
theorem C8_rgb565_witness :
    rgb565_word 255 0 0 < 2 ^ 16 ∧
    convert_to_rgb565 [(255, 0, 0), (0, 255, 0)] = [0, 248, 224, 7] :=
  ⟨C8_rgb565_encoding.2.1 255 0 0 (by decide) (by decide) (by decide),
   C8_rgb565_encoding.2.2⟩

/-- Texts of the form "Error: ..." are classified as errors. -/
theorem is_error_text_error_head (m : Chars) :
    is_error_text ("Error: ".data ++ m) = true := by
  have h : ("Error: ".data ++ m) = "Error:".data ++ (' ' :: m) := rfl
  unfold is_error_text
  rw [h, str_starts_with_append]
  rfl

/-- Texts of the form "API Error: ..." are classified as errors. -/
theorem is_error_text_api_error_head (m : Chars) :
    is_error_text ("API Error: ".data ++ m) = true := by
  have h : ("API Error: ".data ++ m) = "API Error:".data ++ (' ' :: m) := rfl
  unfold is_error_text
  rw [h, str_starts_with_append]
  simp

/-- C10: every modelled failure path of `get_hint` returns a string starting
with "Error:" or "API Error:" (missing key, unknown provider, HTTP error and
caught exception in either provider call), and `_process_hint_request`
classifies a returned text as failed exactly when it starts with one of
those prefixes — so a genuinely generated hint that happens to start with
such a text is classified as a failure and never reaches the Ready state. -/
theorem C10_error_text_classification :
    (∀ sOk prov h, get_hint [] sOk prov h =
        .ok "Error: No API key configured. Edit config.json to add your API key.".data ∧
      is_error_text
        "Error: No API key configured. Edit config.json to add your API key.".data
        = true) ∧
    (∀ key prov hh, key ≠ [] → prov ≠ "anthropic".data →
      prov ≠ "openai".data →
      get_hint key true prov hh =
        .ok ("Error: Unknown API provider: ".data ++ prov) ∧
      is_error_text ("Error: Unknown API provider: ".data ++ prov) = true) ∧
    (∀ c, is_error_text (call_anthropic (.httpError c)) = true ∧
          is_error_text (call_openai (.httpError c)) = true) ∧
    (∀ m, is_error_text (call_anthropic (.exn m)) = true ∧
          is_error_text (call_openai (.exn m)) = true) ∧
    (∀ t, process_hint_request (.ok t) = .ready t ↔
          is_error_text t = false) ∧
    (∀ t, is_error_text t = true →
      process_hint_request (.ok t) = .api_error ∧
      ∀ u, process_hint_request (.ok t) ≠ .ready u) := by
  refine ⟨?_, ?_, ?_, ?_, ?_, ?_⟩
  · intro sOk prov h
    exact ⟨rfl, by decide⟩
  · intro key prov hh hkey h1 h2
    constructor
    · simp [get_hint, hkey, h1, h2]
    · have h : ("Error: Unknown API provider: ".data ++ prov) =
          "Error: ".data ++ ("Unknown API provider: ".data ++ prov) := rfl
      rw [h]
      exact is_error_text_error_head _
  · intro c
    constructor
    · exact is_error_text_api_error_head _
    · exact is_error_text_api_error_head _
  · intro m
    constructor
    · exact is_error_text_error_head _
    · exact is_error_text_error_head _
  · intro t
    by_cases he : is_error_text t
    · simp [process_hint_request, he]
    · simp [process_hint_request, he]
  · intro t ht
    simp [process_hint_request, ht]

/-- Witness for C10: an unknown provider "gemini" with a nonempty key yields
a classified error string, and a genuine hint text that begins with
"Error: " is classified as a failure. -/
theorem C10_classification_witness :
    get_hint "k".data true "gemini".data (.ok (some "hi".data)) =
      .ok ("Error: Unknown API provider: ".data ++ "gemini".data) ∧
    process_hint_request (.ok "Error: use the blue key".data) = .api_error :=
  ⟨((C10_error_text_classification).2.1 "k".data "gemini".data
      (.ok (some "hi".data)) (by decide) (by decide) (by decide)).1,
   ((C10_error_text_classification).2.2.2.2.2 "Error: use the blue key".data
      (by decide)).1⟩

end AIHintBot
